import Mathlib

/-!
# SocialBattery-Volt: verification of the state integration engine

Shallow embedding of the battery-level integration logic of the repository:

* `src/backend/battery_service.py` — the stand-alone `calculate_state`
  function with its module constants;
* `src/backend/main.py` — the `VoltCore` class (`update`) and the
  per-message parsing of the websocket handler `websocket_endpoint`.

Python floats are embedded as exact rationals (`ℚ`); a separate model
(`PyF`) extends `ℚ` with a NaN value and mirrors Python's `min`/`max`/
comparison semantics on NaN, for the claims about non-finite input.

The haversine distance (`haversine_distance` in `battery_service.py`,
`VoltCore._get_distance_km` in `main.py`) is a transcendental function of
the coordinates (sin, cos, atan2, sqrt); both callers use it only through
the single comparison `distance <= radius`, so the embedded functions take
the already-computed great-circle `distance` as an input and embed
everything from that comparison on exactly.
-/

/-! ## Constants of `src/backend/battery_service.py` (lines 5-9) -/

/-- `HOME_RADIUS_KM = 0.05` (50 meters). -/
def HOME_RADIUS_KM : ℚ := 5 / 100

/-- `BASE_DRAIN_RATE = 5.0` percent per minute. -/
def BASE_DRAIN_RATE : ℚ := 5

/-- `CHARGE_RATE = 10.0` percent per minute. -/
def CHARGE_RATE : ℚ := 10

/-- `CROWD_FACTOR = 0.2` multiplier per device. -/
def CROWD_FACTOR : ℚ := 2 / 10

/-- The dict returned by `calculate_state` (battery_service.py lines 50-56). -/
structure CalcResult where
  level : ℚ
  status : String
  drain_rate : ℚ
  distance : ℚ
  is_home : Bool
  deriving Repr, DecidableEq

/-- `calculate_state` from `src/backend/battery_service.py`, lines 18-56.
`distance` is the already-computed haversine distance of line 28 (see the
file header); `nearby_devices` is a Python `int`, hence `ℤ`. The source
computes `multiplier = 1.0 + nearby_devices * CROWD_FACTOR` and
`rate = BASE_DRAIN_RATE * multiplier` in the draining branch. -/
def calculate_state (current_level : ℚ) (distance : ℚ) (nearby_devices : ℤ)
    (time_delta_seconds : ℚ) : CalcResult :=
  let is_at_home : Prop := distance ≤ HOME_RADIUS_KM
  let status := if is_at_home then "CHARGING" else "DRAINING"
  let rate :=
    if is_at_home then CHARGE_RATE
    else BASE_DRAIN_RATE * (1 + (nearby_devices : ℚ) * CROWD_FACTOR)
  let minutes := time_delta_seconds / 60
  let new_level :=
    if 0 < minutes then
      if is_at_home then min 100 (current_level + rate * minutes)
      else max 0 (current_level - rate * minutes)
    else current_level
  { level := new_level
    status := status
    drain_rate := if is_at_home then -rate else rate
    distance := distance
    is_home := decide is_at_home }

/-! ## The `VoltCore` class of `src/backend/main.py` -/

/-- The `self.config` dict of `VoltCore.__init__` (main.py lines 26-32). -/
structure VoltConfig where
  home_radius_km : ℚ
  charge_rate_min : ℚ
  base_drain_min : ℚ
  social_factor : ℚ
  max_stress_mult : ℚ
  deriving Repr

/-- The hard-coded configuration values of main.py lines 27-31:
radius 0.1 km, charge 1.0 %/min, base drain 0.1 %/min, 0.25 per device,
max stress multiplier 3.0. -/
def volt_config : VoltConfig :=
  { home_radius_km := 1 / 10
    charge_rate_min := 1
    base_drain_min := 1 / 10
    social_factor := 25 / 100
    max_stress_mult := 3 }

/-- Python `round(x, 2)` as used on main.py lines 104 and 106. Python
rounds half to even on binary floats; the embedded version rounds half
up, which agrees with it everywhere the claims evaluate it (no value in
this development sits on a half-hundredth boundary). -/
def round2 (q : ℚ) : ℚ := ((round (q * 100) : ℤ) : ℚ) / 100

/-- The clamp of main.py line 100: `max(0.0, min(100.0, x))`. -/
def clamp_level (x : ℚ) : ℚ := max 0 (min 100 x)

/-- The stress-multiplier block of `VoltCore.update` (main.py lines 85-89),
evaluated only in the draining branch:
`if hrv and hrv > 0: multiplier = clamp(baseline/hrv, 0.5, max_stress)`
`else: multiplier = 1.0`.
Python's truthiness test `hrv and` excludes `None` (the `Option.none`
case) and `0.0`, which `0 < h` already excludes. -/
def stress_mult (baseline_hrv : ℚ) (hrv : Option ℚ) : ℚ :=
  match hrv with
  | some h => if 0 < h then
      max (1 / 2) (min (baseline_hrv / h) volt_config.max_stress_mult)
    else 1
  | none => 1

/-- The dict returned by `VoltCore.update` (main.py lines 103-110).
The `timestamp` (wall clock) and `message` (display formatting of the
other fields) entries are not modelled. -/
structure VoltResult where
  current_level : ℚ
  status : String
  stress_multiplier : ℚ
  is_home : Bool
  deriving Repr, DecidableEq

/-- `VoltCore.update` from `src/backend/main.py`, lines 68-110, as a pure
function on the stored level `self.level`: it returns the new stored
level (the assignment of line 100, which `_save_state` persists) together
with the returned dict. `distance` is the already-computed haversine
distance of line 70 (see the file header). `multiplier` is initialized to
`0.0` on line 73 and assigned only in the draining branch; `status` is
initialized to `"IDLE"` on line 74 and overwritten in both branches. -/
def VoltCore.update (baseline_hrv : ℚ) (level : ℚ) (distance : ℚ)
    (device_count : ℤ) (hrv : Option ℚ) (time_delta_sec : ℚ) :
    ℚ × VoltResult :=
  let is_home : Prop := distance ≤ volt_config.home_radius_km
  let multiplier := if is_home then 0 else stress_mult baseline_hrv hrv
  let status := if is_home then "RECHARGING" else "DRAINING"
  let delta :=
    if is_home then volt_config.charge_rate_min * (time_delta_sec / 60)
    else
      -(((volt_config.base_drain_min +
          (device_count : ℚ) * volt_config.social_factor) *
         stress_mult baseline_hrv hrv) * (time_delta_sec / 60))
  let new_level := clamp_level (level + delta)
  (new_level,
   { current_level := round2 new_level
     status := status
     stress_multiplier := round2 multiplier
     is_home := decide is_home })

/-! ## Tick sequences

One telemetry tick as `VoltCore.update` (respectively `calculate_state`)
consumes it, and the stored level after a sequence of ticks. -/

/-- The per-tick inputs of `VoltCore.update` / `calculate_state` other
than the running level (the distance stands for the coordinates, see the
file header). -/
structure Tick where
  distance : ℚ
  device_count : ℤ
  hrv : Option ℚ
  time_delta_sec : ℚ
  deriving Repr

/-- The stored level after feeding the ticks `ts` one by one to
`VoltCore.update`, starting from stored level `level` (each call's new
level of main.py line 100 is the next call's `self.level`). -/
def runVolt (baseline_hrv : ℚ) (level : ℚ) : List Tick → ℚ
  | [] => level
  | t :: ts =>
      runVolt baseline_hrv
        (VoltCore.update baseline_hrv level t.distance t.device_count
          t.hrv t.time_delta_sec).1 ts

/-- The level after feeding the ticks `ts` one by one to
`calculate_state`, starting from `level` (each result's `level` field is
the next call's `current_level`). `calculate_state` ignores the HRV field
of a tick (it takes none). -/
def runCalc (level : ℚ) : List Tick → ℚ
  | [] => level
  | t :: ts =>
      runCalc
        (calculate_state level t.distance t.device_count
          t.time_delta_sec).level ts

/-! ## The websocket handler's parsing (main.py lines 148-169)

`websocket_endpoint` reads one JSON object per tick and substitutes
defaults for missing fields with `dict.get`. The inbound message is
embedded as a record of optional fields, and one loop iteration as a pure
function from the message, the elapsed seconds and the stored level to
the updated level and emitted result. -/

/-- One inbound telemetry JSON object: each field may be absent. -/
structure WsMessage where
  latitude : Option ℚ
  longitude : Option ℚ
  nearby_device_count : Option ℤ
  hrv_value : Option ℚ
  deriving Repr

/-- One iteration of the `while True` loop of `websocket_endpoint`
(main.py lines 148-169): parse with defaults
(`data.get("latitude", 0.0)`, `data.get("longitude", 0.0)`,
`data.get("nearby_device_count", 0)`, `data.get("hrv_value")`), replace a
non-positive elapsed time by `1.0` (line 159), and call
`battery_core.update`. `dist_of lat lon` stands for the haversine
distance from the parsed coordinates to the home coordinates, computed
inside `update` (line 70); it is kept abstract, see the file header. -/
def websocket_step (dist_of : ℚ → ℚ → ℚ) (baseline_hrv : ℚ) (level : ℚ)
    (m : WsMessage) (delta_sec : ℚ) : ℚ × VoltResult :=
  let lat := m.latitude.getD 0
  let lon := m.longitude.getD 0
  let device_count := m.nearby_device_count.getD 0
  let hrv := m.hrv_value
  let ds := if delta_sec ≤ 0 then 1 else delta_sec
  VoltCore.update baseline_hrv level (dist_of lat lon) device_count hrv ds

/-! ## Python-float model with NaN (for the non-finite-input claim)

`main.py` performs no finiteness validation; to settle what `update`
does on a NaN input, the stored-level computation of `VoltCore.update`
(lines 68-101) is re-embedded over a float model `PyF` that extends `ℚ`
with a NaN value, with Python's semantics: arithmetic on NaN yields NaN,
every comparison with NaN is false, and `min(a, b)` / `max(a, b)` return
`b` only when `b < a` / `b > a` holds, hence fall back to `a` when NaN
makes the comparison false. Infinities behave like NaN for every
operation used here (comparisons false would differ, but no claim needs
them), so a single non-finite value suffices. -/

/-- A Python float: a finite rational or NaN. -/
inductive PyF where
  | fin (q : ℚ)
  | nan
  deriving Repr, DecidableEq

/-- Python `a + b` on floats: NaN propagates. -/
def PyF.add : PyF → PyF → PyF
  | fin a, fin b => fin (a + b)
  | _, _ => nan

/-- Python `a * b` on floats: NaN propagates. -/
def PyF.mul : PyF → PyF → PyF
  | fin a, fin b => fin (a * b)
  | _, _ => nan

/-- Python `a / b` on floats: NaN propagates. Every division in
`VoltCore.update` has a positive divisor (`60.0`, or `hrv` guarded by
`hrv > 0`), so the zero-divisor case (a Python `ZeroDivisionError`) is
unreachable and mapped to NaN. -/
def PyF.div : PyF → PyF → PyF
  | fin a, fin b => if b = 0 then nan else fin (a / b)
  | _, _ => nan

/-- Python `-a` on floats. -/
def PyF.neg : PyF → PyF
  | fin a => fin (-a)
  | nan => nan

/-- Python `a < b` on floats: false whenever either side is NaN. -/
def PyF.lt : PyF → PyF → Bool
  | fin a, fin b => decide (a < b)
  | _, _ => false

/-- Python `a <= b` on floats: false whenever either side is NaN. -/
def PyF.le : PyF → PyF → Bool
  | fin a, fin b => decide (a ≤ b)
  | _, _ => false

/-- Python `min(a, b)`: returns `b` if `b < a`, else `a`. -/
def PyF.pymin (a b : PyF) : PyF := if PyF.lt b a then b else a

/-- Python `max(a, b)`: returns `b` if `a < b`, else `a`. -/
def PyF.pymax (a b : PyF) : PyF := if PyF.lt a b then b else a

/-- The stored-level computation of `VoltCore.update` (main.py lines
68-101) over the float model `PyF`: the value assigned to `self.level`
on line 100 and persisted by `_save_state` on line 101. Same structure
as `VoltCore.update` above; the returned dict is mirrored only in the
exact-rational model. Python's `if hrv and hrv > 0` is false when `hrv`
is `None`, `0.0`, non-positive, or NaN (NaN is truthy but `nan > 0` is
false), i.e. exactly when `PyF.lt (fin 0) h` fails. -/
def VoltCore.updateF (baseline_hrv : PyF) (level : PyF) (distance : PyF)
    (device_count : ℤ) (hrv : Option PyF) (time_delta_sec : PyF) : PyF :=
  let is_home := PyF.le distance (PyF.fin volt_config.home_radius_km)
  let delta :=
    if is_home then
      PyF.mul (PyF.fin volt_config.charge_rate_min)
        (PyF.div time_delta_sec (PyF.fin 60))
    else
      let multiplier :=
        match hrv with
        | some h =>
            if PyF.lt (PyF.fin 0) h then
              PyF.pymax (PyF.fin (1 / 2))
                (PyF.pymin (PyF.div baseline_hrv h)
                  (PyF.fin volt_config.max_stress_mult))
            else PyF.fin 1
        | none => PyF.fin 1
      let total :=
        PyF.mul
          (PyF.add (PyF.fin volt_config.base_drain_min)
            (PyF.mul (PyF.fin (device_count : ℚ))
              (PyF.fin volt_config.social_factor)))
          multiplier
      PyF.neg (PyF.mul total (PyF.div time_delta_sec (PyF.fin 60)))
  PyF.pymax (PyF.fin 0) (PyF.pymin (PyF.fin 100) (PyF.add level delta))

/-! ## Helper lemmas -/

lemma clamp_level_nonneg (x : ℚ) : 0 ≤ clamp_level x := le_max_left 0 _

lemma clamp_level_le_100 (x : ℚ) : clamp_level x ≤ 100 :=
  max_le (by norm_num) (min_le_left _ _)

lemma clamp_level_eq_self {x : ℚ} (h0 : 0 ≤ x) (h1 : x ≤ 100) :
    clamp_level x = x := by
  unfold clamp_level
  rw [min_eq_right h1, max_eq_right h0]

lemma le_clamp_level_add {l e : ℚ} (hl : l ≤ 100) (he : 0 ≤ e) :
    l ≤ clamp_level (l + e) := by
  unfold clamp_level
  exact le_trans (le_min hl (by linarith)) (le_max_right _ _)

lemma clamp_level_add_le {l e : ℚ} (hl : 0 ≤ l) (he : e ≤ 0) :
    clamp_level (l + e) ≤ l := by
  unfold clamp_level
  exact max_le hl (le_trans (min_le_right _ _) (by linarith))

lemma stress_mult_none (b : ℚ) : stress_mult b none = 1 := rfl

lemma stress_mult_of_pos {h : ℚ} (b : ℚ) (hh : 0 < h) :
    stress_mult b (some h) =
      max (1 / 2) (min (b / h) volt_config.max_stress_mult) := by
  simp [stress_mult, hh]

lemma stress_mult_of_nonpos {h : ℚ} (b : ℚ) (hh : h ≤ 0) :
    stress_mult b (some h) = 1 := by
  simp [stress_mult, not_lt.mpr hh]

lemma stress_mult_nonneg (b : ℚ) (hrv : Option ℚ) :
    0 ≤ stress_mult b hrv := by
  cases hrv with
  | none => norm_num [stress_mult_none]
  | some h =>
      by_cases hh : 0 < h
      · rw [stress_mult_of_pos b hh]
        exact le_trans (by norm_num) (le_max_left _ _)
      · rw [stress_mult_of_nonpos b (not_lt.mp hh)]
        norm_num

lemma stress_mult_mem {h : ℚ} (b : ℚ) (hh : 0 < h) :
    1 / 2 ≤ stress_mult b (some h) ∧ stress_mult b (some h) ≤ 3 := by
  rw [stress_mult_of_pos b hh]
  refine ⟨le_max_left _ _, max_le (by norm_num) ?_⟩
  exact le_trans (min_le_right _ _) (by norm_num [volt_config])

lemma round2_zero : round2 0 = 0 := by norm_num [round2]

lemma round2_one : round2 1 = 1 := by norm_num [round2]

/-- `round(x, 2)` is the identity on rationals that are whole
hundredths. -/
lemma round2_eq_self {x : ℚ} (n : ℤ) (h : x * 100 = (n : ℚ)) :
    round2 x = x := by
  unfold round2
  rw [h, round_intCast]
  rw [eq_comm, eq_div_iff (by norm_num : (100 : ℚ) ≠ 0), h]

lemma round2_mono {x y : ℚ} (h : x ≤ y) : round2 x ≤ round2 y := by
  unfold round2
  have h2 : round (x * 100) ≤ round (y * 100) := by
    rw [round_eq, round_eq]
    exact Int.floor_le_floor (by linarith)
  have h3 : ((round (x * 100) : ℤ) : ℚ) ≤ ((round (y * 100) : ℤ) : ℚ) :=
    Int.cast_le.mpr h2
  exact (div_le_div_iff_of_pos_right (by norm_num)).mpr h3

/-- Home branch of `VoltCore.update` (main.py lines 76-80). -/
lemma update_home {d : ℚ} (b l t : ℚ) (dc : ℤ) (hrv : Option ℚ)
    (hd : d ≤ volt_config.home_radius_km) :
    VoltCore.update b l d dc hrv t =
      (clamp_level (l + volt_config.charge_rate_min * (t / 60)),
       { current_level :=
           round2 (clamp_level (l + volt_config.charge_rate_min * (t / 60)))
         status := "RECHARGING"
         stress_multiplier := 0
         is_home := true }) := by
  simp [VoltCore.update, hd, round2_zero]

/-- Away branch of `VoltCore.update` (main.py lines 81-97). -/
lemma update_away {d : ℚ} (b l t : ℚ) (dc : ℤ) (hrv : Option ℚ)
    (hd : ¬ d ≤ volt_config.home_radius_km) :
    VoltCore.update b l d dc hrv t =
      (clamp_level (l -
         ((volt_config.base_drain_min +
           (dc : ℚ) * volt_config.social_factor) * stress_mult b hrv) *
          (t / 60)),
       { current_level :=
           round2 (clamp_level (l -
             ((volt_config.base_drain_min +
               (dc : ℚ) * volt_config.social_factor) * stress_mult b hrv) *
              (t / 60)))
         status := "DRAINING"
         stress_multiplier := round2 (stress_mult b hrv)
         is_home := false }) := by
  simp [VoltCore.update, hd, sub_eq_add_neg]

/-- Home branch of `calculate_state` (battery_service.py lines 32-34,
40-48). -/
lemma calc_home {d : ℚ} (l t : ℚ) (dc : ℤ) (hd : d ≤ HOME_RADIUS_KM) :
    calculate_state l d dc t =
      { level := if 0 < t / 60 then min 100 (l + CHARGE_RATE * (t / 60))
                 else l
        status := "CHARGING"
        drain_rate := -CHARGE_RATE
        distance := d
        is_home := true } := by
  simp [calculate_state, hd]

/-- The `status` field of `calculate_state` depends only on the distance
comparison. -/
lemma calc_status (l t : ℚ) (dc : ℤ) (d : ℚ) :
    (calculate_state l d dc t).status =
      if d ≤ HOME_RADIUS_KM then "CHARGING" else "DRAINING" := by
  simp only [calculate_state]

/-- The `status` field of `VoltCore.update` depends only on the distance
comparison. -/
lemma update_status (b l t : ℚ) (dc : ℤ) (hrv : Option ℚ) (d : ℚ) :
    (VoltCore.update b l d dc hrv t).2.status =
      if d ≤ volt_config.home_radius_km then "RECHARGING" else "DRAINING" := by
  simp only [VoltCore.update]

/-- Away branch of `calculate_state` (battery_service.py lines 35-38,
40-48). -/
lemma calc_away {d : ℚ} (l t : ℚ) (dc : ℤ) (hd : ¬ d ≤ HOME_RADIUS_KM) :
    calculate_state l d dc t =
      { level := if 0 < t / 60 then
                   max 0 (l - BASE_DRAIN_RATE * (1 + (dc : ℚ) * CROWD_FACTOR) * (t / 60))
                 else l
        status := "DRAINING"
        drain_rate := BASE_DRAIN_RATE * (1 + (dc : ℚ) * CROWD_FACTOR)
        distance := d
        is_home := false } := by
  simp [calculate_state, hd]

/-- The stored level produced by `VoltCore.update` is always clamped to
`[0, 100]` (main.py line 100). -/
lemma volt_level_bounds (b l d t : ℚ) (dc : ℤ) (hrv : Option ℚ) :
    0 ≤ (VoltCore.update b l d dc hrv t).1 ∧
      (VoltCore.update b l d dc hrv t).1 ≤ 100 := by
  by_cases hd : d ≤ volt_config.home_radius_km
  · rw [update_home b l t dc hrv hd]
    exact ⟨clamp_level_nonneg _, clamp_level_le_100 _⟩
  · rw [update_away b l t dc hrv hd]
    exact ⟨clamp_level_nonneg _, clamp_level_le_100 _⟩

/-- A home tick of `VoltCore.update` with non-negative elapsed time does
not decrease the level. -/
lemma volt_step_home {d t l : ℚ} (b : ℚ) (dc : ℤ) (hrv : Option ℚ)
    (hd : d ≤ volt_config.home_radius_km) (ht : 0 ≤ t) (hl : l ≤ 100) :
    l ≤ (VoltCore.update b l d dc hrv t).1 := by
  rw [update_home b l t dc hrv hd]
  exact le_clamp_level_add hl
    (mul_nonneg (by norm_num [volt_config]) (div_nonneg ht (by norm_num)))

/-- An away tick of `VoltCore.update` with non-negative elapsed time and
device count does not increase the level. -/
lemma volt_step_away {d t l : ℚ} (b : ℚ) (dc : ℤ) (hrv : Option ℚ)
    (hd : ¬ d ≤ volt_config.home_radius_km) (ht : 0 ≤ t) (hdc : 0 ≤ dc)
    (hl : 0 ≤ l) :
    (VoltCore.update b l d dc hrv t).1 ≤ l := by
  rw [update_away b l t dc hrv hd, sub_eq_add_neg]
  apply clamp_level_add_le hl
  have hdq : (0 : ℚ) ≤ (dc : ℚ) := by exact_mod_cast hdc
  have h1 : 0 ≤ volt_config.base_drain_min +
      (dc : ℚ) * volt_config.social_factor := by
    have h0 : 0 ≤ (dc : ℚ) * volt_config.social_factor :=
      mul_nonneg hdq (by norm_num [volt_config])
    norm_num [volt_config] at h0 ⊢
    linarith
  exact neg_nonpos.mpr
    (mul_nonneg (mul_nonneg h1 (stress_mult_nonneg b hrv))
      (div_nonneg ht (by norm_num)))

/-- A home tick of `calculate_state` does not decrease a level that is at
most 100, and keeps it at most 100. -/
lemma calc_step_home {d t l : ℚ} (dc : ℤ) (hd : d ≤ HOME_RADIUS_KM)
    (hl : l ≤ 100) :
    l ≤ (calculate_state l d dc t).level ∧
      (calculate_state l d dc t).level ≤ 100 := by
  rw [calc_home l t dc hd]
  dsimp only
  split_ifs with ht
  · have h0 : 0 ≤ CHARGE_RATE * (t / 60) :=
      mul_nonneg (by norm_num [CHARGE_RATE]) (le_of_lt ht)
    exact ⟨le_min hl (by linarith), min_le_left _ _⟩
  · exact ⟨le_refl l, hl⟩

/-- An away tick of `calculate_state` with a non-negative device count
does not increase a non-negative level, and keeps it non-negative. -/
lemma calc_step_away {d t l : ℚ} (dc : ℤ) (hd : ¬ d ≤ HOME_RADIUS_KM)
    (hdc : 0 ≤ dc) (hl : 0 ≤ l) :
    (calculate_state l d dc t).level ≤ l ∧
      0 ≤ (calculate_state l d dc t).level := by
  rw [calc_away l t dc hd]
  dsimp only
  split_ifs with ht
  · have hdq : (0 : ℚ) ≤ (dc : ℚ) := by exact_mod_cast hdc
    have h1 : 0 ≤ BASE_DRAIN_RATE * (1 + (dc : ℚ) * CROWD_FACTOR) := by
      have h0 : 0 ≤ (dc : ℚ) * CROWD_FACTOR :=
        mul_nonneg hdq (by norm_num [CROWD_FACTOR])
      norm_num [BASE_DRAIN_RATE]
      linarith
    have h2 : 0 ≤ BASE_DRAIN_RATE * (1 + (dc : ℚ) * CROWD_FACTOR) * (t / 60) :=
      mul_nonneg h1 (le_of_lt ht)
    exact ⟨max_le hl (by linarith), le_max_left _ _⟩
  · exact ⟨le_refl l, hl⟩

/-- Monotone non-decrease of the stored level across a list of home ticks
(`runVolt`). -/
lemma runVolt_home_mono (b : ℚ) (ts : List Tick) :
    ∀ l : ℚ, l ≤ 100 →
      (∀ tk ∈ ts, tk.distance ≤ volt_config.home_radius_km ∧
        0 ≤ tk.time_delta_sec) →
      l ≤ runVolt b l ts := by
  induction ts with
  | nil => intro l _ _; exact le_refl l
  | cons tk ts ih =>
      intro l hl hts
      obtain ⟨hd, ht⟩ := hts tk (List.mem_cons_self tk ts)
      simp only [runVolt]
      refine le_trans (volt_step_home b tk.device_count tk.hrv hd ht hl)
        (ih _ (volt_level_bounds b l tk.distance tk.time_delta_sec
          tk.device_count tk.hrv).2 ?_)
      intro x hx
      exact hts x (List.mem_cons_of_mem _ hx)

/-- Monotone non-increase of the stored level across a list of away ticks
(`runVolt`). -/
lemma runVolt_away_anti (b : ℚ) (ts : List Tick) :
    ∀ l : ℚ, 0 ≤ l →
      (∀ tk ∈ ts, ¬ tk.distance ≤ volt_config.home_radius_km ∧
        0 ≤ tk.time_delta_sec ∧ 0 ≤ tk.device_count) →
      runVolt b l ts ≤ l := by
  induction ts with
  | nil => intro l _ _; exact le_refl l
  | cons tk ts ih =>
      intro l hl hts
      obtain ⟨hd, ht, hdc⟩ := hts tk (List.mem_cons_self tk ts)
      simp only [runVolt]
      refine le_trans
        (ih _ (volt_level_bounds b l tk.distance tk.time_delta_sec
          tk.device_count tk.hrv).1 ?_)
        (volt_step_away b tk.device_count tk.hrv hd ht hdc hl)
      intro x hx
      exact hts x (List.mem_cons_of_mem _ hx)

/-- Monotone non-decrease of the level across a list of home ticks
(`runCalc`). -/
lemma runCalc_home_mono (ts : List Tick) :
    ∀ l : ℚ, l ≤ 100 →
      (∀ tk ∈ ts, tk.distance ≤ HOME_RADIUS_KM) →
      l ≤ runCalc l ts := by
  induction ts with
  | nil => intro l _ _; exact le_refl l
  | cons tk ts ih =>
      intro l hl hts
      have hd := hts tk (List.mem_cons_self tk ts)
      obtain ⟨hstep, hle⟩ := calc_step_home (t := tk.time_delta_sec)
        tk.device_count hd hl
      simp only [runCalc]
      refine le_trans hstep (ih _ hle ?_)
      intro x hx
      exact hts x (List.mem_cons_of_mem _ hx)

/-- Monotone non-increase of the level across a list of away ticks
(`runCalc`). -/
lemma runCalc_away_anti (ts : List Tick) :
    ∀ l : ℚ, 0 ≤ l →
      (∀ tk ∈ ts, ¬ tk.distance ≤ HOME_RADIUS_KM ∧ 0 ≤ tk.device_count) →
      runCalc l ts ≤ l := by
  induction ts with
  | nil => intro l _ _; exact le_refl l
  | cons tk ts ih =>
      intro l hl hts
      obtain ⟨hd, hdc⟩ := hts tk (List.mem_cons_self tk ts)
      obtain ⟨hstep, hge⟩ := calc_step_away (t := tk.time_delta_sec)
        tk.device_count hd hdc hl
      simp only [runCalc]
      refine le_trans (ih _ hge ?_) hstep
      intro x hx
      exact hts x (List.mem_cons_of_mem _ hx)

/-- NaN on the left of Python float addition yields NaN. -/
lemma PyF.nan_add (x : PyF) : PyF.add PyF.nan x = PyF.nan := by
  cases x <;> rfl

/-- NaN on the right of Python float addition yields NaN. -/
lemma PyF.add_nan (x : PyF) : PyF.add x PyF.nan = PyF.nan := by
  cases x <;> rfl

/-- NaN on the right of Python float multiplication yields NaN. -/
lemma PyF.mul_nan (x : PyF) : PyF.mul x PyF.nan = PyF.nan := by
  cases x <;> rfl

/-- A comparison with NaN on the left is false. -/
lemma PyF.lt_nan_left (x : PyF) : PyF.lt PyF.nan x = false := by
  cases x <;> rfl

/-- A comparison with NaN on the right is false. -/
lemma PyF.lt_fin_nan (a : ℚ) : PyF.lt (PyF.fin a) PyF.nan = false := rfl

/-- `min(100.0, nan)` falls back to the first argument in Python. -/
lemma PyF.pymin_fin_nan (a : ℚ) :
    PyF.pymin (PyF.fin a) PyF.nan = PyF.fin a := by
  simp [PyF.pymin, PyF.lt_nan_left]

/-- The Python clamp of main.py line 100 turns a NaN level into 100.0. -/
lemma PyF.clamp_nan :
    PyF.pymax (PyF.fin 0) (PyF.pymin (PyF.fin 100) PyF.nan) =
      PyF.fin 100 := by
  rw [PyF.pymin_fin_nan]
  simp only [PyF.pymax, PyF.lt]
  norm_num

/-! ## Claims -/

/-- C1, counterexample: the claim quantifies over every device count, but
`calculate_state` clamps only one side per branch; at input level 100
(inside `[0, 100]`), away (distance 1), device count `-10` and 60 elapsed
seconds, the crowd multiplier is `1 + (-10) * 0.2 = -1`, the rate is
`-5` %/min, and `max(0.0, 100 - (-5)) = 105`, outside `[0, 100]`. -/
theorem C1_counterexample :
    0 ≤ (100 : ℚ) ∧ (100 : ℚ) ≤ 100 ∧
    (calculate_state 100 1 (-10) 60).level = 105 ∧
    ¬ (calculate_state 100 1 (-10) 60).level ≤ 100 := by
  have he : (calculate_state 100 1 (-10) 60).level = 105 := by
    rw [calc_away (d := 1) 100 60 (-10) (by norm_num [HOME_RADIUS_KM])]
    dsimp only
    norm_num [BASE_DRAIN_RATE, CROWD_FACTOR, max_def]
  refine ⟨by norm_num, by norm_num, he, ?_⟩
  rw [he]
  norm_num

/-- C1 (amended): for every input level in `[0, 100]` and every
**non-negative** device count, the new level produced by the integration
step is in `[0, 100]`, for every combination of distance, HRV value and
elapsed time; `VoltCore.update` needs no device-count restriction (its
line-100 clamp bounds both sides), `calculate_state` does. -/
theorem C1_level_in_range (b l d t : ℚ) (dc : ℤ) (hrv : Option ℚ)
    (hl0 : 0 ≤ l) (hl1 : l ≤ 100) (hdc : 0 ≤ dc) :
    (0 ≤ (VoltCore.update b l d dc hrv t).1 ∧
      (VoltCore.update b l d dc hrv t).1 ≤ 100) ∧
    (0 ≤ (calculate_state l d dc t).level ∧
      (calculate_state l d dc t).level ≤ 100) := by
  refine ⟨volt_level_bounds b l d t dc hrv, ?_⟩
  by_cases hd : d ≤ HOME_RADIUS_KM
  · obtain ⟨h1, h2⟩ := calc_step_home (t := t) dc hd hl1
    exact ⟨le_trans hl0 h1, h2⟩
  · obtain ⟨h1, h2⟩ := calc_step_away (t := t) dc hd hdc hl0
    exact ⟨h2, le_trans h1 hl1⟩

/-- C1 witness: the range theorem applied at a concrete away tick. -/
theorem C1_level_in_range_witness :
    (0 ≤ (VoltCore.update 50 50 1 0 none 60).1 ∧
      (VoltCore.update 50 50 1 0 none 60).1 ≤ 100) ∧
    (0 ≤ (calculate_state 50 1 0 60).level ∧
      (calculate_state 50 1 0 60).level ≤ 100) :=
  C1_level_in_range 50 50 1 60 0 none (by norm_num) (by norm_num)
    (by norm_num)

/-- C2, counterexample: `VoltCore.update` has no guard on non-positive
elapsed time; at home (distance 0) with level 50 and elapsed `-60`
seconds, the delta is `1.0 * (-60/60) = -1` and the stored level becomes
49, not 50. (The `minutes = max(elapsedSeconds, 0)` guard exists only in
`calculate_state`.) -/
theorem C2_counterexample :
    (-60 : ℚ) ≤ 0 ∧
    (VoltCore.update 50 50 0 0 none (-60)).1 = 49 ∧
    ¬ (VoltCore.update 50 50 0 0 none (-60)).1 = 50 := by
  have he : (VoltCore.update 50 50 0 0 none (-60)).1 = 49 := by
    rw [update_home (d := 0) 50 50 (-60) 0 none (by norm_num [volt_config])]
    dsimp only
    norm_num [volt_config, clamp_level, min_def, max_def]
  refine ⟨by norm_num, he, ?_⟩
  rw [he]
  norm_num

/-- C2 (amended): `calculate_state` leaves the level exactly unchanged on
every input with elapsed time ≤ 0, regardless of home/away status, device
count or multiplier; `VoltCore.update` leaves it unchanged only at
elapsed time exactly 0 (given a level in `[0, 100]`), and applies the
signed delta for negative elapsed time. -/
theorem C2_nonpositive_elapsed (b l d t : ℚ) (dc : ℤ) (hrv : Option ℚ)
    (ht : t ≤ 0) (hl0 : 0 ≤ l) (hl1 : l ≤ 100) :
    (calculate_state l d dc t).level = l ∧
    (VoltCore.update b l d dc hrv 0).1 = l := by
  constructor
  · have hm : ¬ 0 < t / 60 := by rw [not_lt]; linarith
    by_cases hd : d ≤ HOME_RADIUS_KM
    · rw [calc_home l t dc hd]
      dsimp only
      rw [if_neg hm]
    · rw [calc_away l t dc hd]
      dsimp only
      rw [if_neg hm]
  · by_cases hd : d ≤ volt_config.home_radius_km
    · rw [update_home b l 0 dc hrv hd]
      dsimp only
      norm_num
      exact clamp_level_eq_self hl0 hl1
    · rw [update_away b l 0 dc hrv hd]
      dsimp only
      norm_num
      exact clamp_level_eq_self hl0 hl1

/-- C2 witness: a concrete away tick with elapsed `-30` and a zero-elapsed
`VoltCore` tick. -/
theorem C2_nonpositive_elapsed_witness :
    (calculate_state 50 2 1 (-30)).level = 50 ∧
    (VoltCore.update 50 50 2 1 none 0).1 = 50 :=
  C2_nonpositive_elapsed 50 50 2 (-30) 1 none (by norm_num) (by norm_num)
    (by norm_num)

/-- C3, counterexample: the claimed scenario constants (baseDrain 1.0,
socialDrainPerDevice 0.2) are not the code's; with level 50, device count
3, no HRV (multiplier 1.0) and 60 elapsed seconds, away, `VoltCore.update`
drains `(0.1 + 3*0.25) * 1.0 = 0.85` giving 49.15 = 983/20, and
`calculate_state` drains `5.0 * (1 + 3*0.2) = 8` giving 42; neither is
the claimed 48.4 = 484/10. -/
theorem C3_counterexample :
    (VoltCore.update 50 50 1 3 none 60).2.stress_multiplier = 1 ∧
    (VoltCore.update 50 50 1 3 none 60).2.status = "DRAINING" ∧
    (VoltCore.update 50 50 1 3 none 60).1 = 983 / 20 ∧
    ¬ (VoltCore.update 50 50 1 3 none 60).1 = 484 / 10 ∧
    ¬ (calculate_state 50 1 3 60).level = 484 / 10 := by
  have hv : (VoltCore.update 50 50 1 3 none 60).1 = 983 / 20 := by
    rw [update_away (d := 1) 50 50 60 3 none (by norm_num [volt_config])]
    dsimp only
    norm_num [volt_config, stress_mult_none, clamp_level, min_def, max_def]
  have hc : (calculate_state 50 1 3 60).level = 42 := by
    rw [calc_away (d := 1) 50 60 3 (by norm_num [HOME_RADIUS_KM])]
    dsimp only
    norm_num [BASE_DRAIN_RATE, CROWD_FACTOR, max_def]
  refine ⟨?_, ?_, hv, ?_, ?_⟩
  · rw [update_away (d := 1) 50 50 60 3 none (by norm_num [volt_config])]
    dsimp only
    rw [stress_mult_none, round2_one]
  · rw [update_status]
    norm_num [volt_config]
  · rw [hv]
    norm_num
  · rw [hc]
    norm_num

/-- C3 (amended): on every away tick the level change, before clamping,
is `-(baseDrainRatePerMin + deviceCount * socialDrainPerDevice) *
multiplier * (elapsedSeconds / 60)` with the code's constants: for
`VoltCore.update` base 0.1 and 0.25 per device, so the claimed scenario
yields 49.15 with status DRAINING; for `calculate_state` the rate is
`5.0 * (1 + 0.2 * deviceCount)`, i.e. base 5.0 and an effective 1.0 per
device with no stress multiplier, so the scenario yields 42.0 with
status DRAINING. Neither matches the claimed 48.4. -/
theorem C3_drain_step (b l d t : ℚ) (dc : ℤ) (hrv : Option ℚ)
    (hd : ¬ d ≤ volt_config.home_radius_km)
    (hd2 : ¬ d ≤ HOME_RADIUS_KM) :
    (VoltCore.update b l d dc hrv t).1 =
      clamp_level (l - ((volt_config.base_drain_min +
        (dc : ℚ) * volt_config.social_factor) * stress_mult b hrv) *
        (t / 60)) ∧
    (VoltCore.update b l d dc hrv t).2.status = "DRAINING" ∧
    (calculate_state l d dc t).level =
      (if 0 < t / 60 then max 0 (l - (5 + (dc : ℚ) * 1) * (t / 60))
       else l) ∧
    (VoltCore.update 50 50 1 3 none 60).1 = 983 / 20 ∧
    (VoltCore.update 50 50 1 3 none 60).2.status = "DRAINING" ∧
    (calculate_state 50 1 3 60).level = 42 ∧
    (calculate_state 50 1 3 60).status = "DRAINING" := by
  refine ⟨?_, ?_, ?_, ?_, ?_, ?_, ?_⟩
  · rw [update_away b l t dc hrv hd]
  · rw [update_status, if_neg hd]
  · rw [calc_away l t dc hd2]
    dsimp only
    have hrate : BASE_DRAIN_RATE * (1 + (dc : ℚ) * CROWD_FACTOR) =
        5 + (dc : ℚ) * 1 := by
      norm_num [BASE_DRAIN_RATE, CROWD_FACTOR]
      ring
    rw [hrate]
  · rw [update_away (d := 1) 50 50 60 3 none (by norm_num [volt_config])]
    dsimp only
    norm_num [volt_config, stress_mult_none, clamp_level, min_def, max_def]
  · rw [update_status]
    norm_num [volt_config]
  · rw [calc_away (d := 1) 50 60 3 (by norm_num [HOME_RADIUS_KM])]
    dsimp only
    norm_num [BASE_DRAIN_RATE, CROWD_FACTOR, max_def]
  · rw [calc_status]
    norm_num [HOME_RADIUS_KM]

/-- C3 witness: the drain-step theorem at distance 1 with the scenario
inputs. -/
theorem C3_drain_step_witness :
    (VoltCore.update 50 50 1 3 none 60).1 =
      clamp_level (50 - ((volt_config.base_drain_min +
        ((3 : ℤ) : ℚ) * volt_config.social_factor) *
        stress_mult 50 none) * (60 / 60)) ∧
    (VoltCore.update 50 50 1 3 none 60).2.status = "DRAINING" ∧
    (calculate_state 50 1 3 60).level =
      (if 0 < (60 : ℚ) / 60 then
        max 0 (50 - (5 + ((3 : ℤ) : ℚ) * 1) * (60 / 60))
       else 50) ∧
    (VoltCore.update 50 50 1 3 none 60).1 = 983 / 20 ∧
    (VoltCore.update 50 50 1 3 none 60).2.status = "DRAINING" ∧
    (calculate_state 50 1 3 60).level = 42 ∧
    (calculate_state 50 1 3 60).status = "DRAINING" :=
  C3_drain_step 50 50 1 60 3 none (by norm_num [volt_config])
    (by norm_num [HOME_RADIUS_KM])

/-- C4, counterexample: within the home radius (distance 0 ≤ 0.1) the
status `VoltCore.update` returns is the string "RECHARGING", not
"CHARGING". -/
theorem C4_counterexample :
    (VoltCore.update 50 50 0 0 none 60).2.is_home = true ∧
    ¬ (VoltCore.update 50 50 0 0 none 60).2.status = "CHARGING" := by
  constructor
  · rw [update_home (d := 0) 50 50 60 0 none (by norm_num [volt_config])]
  · rw [update_status]
    norm_num [volt_config]
    decide

/-- C4 (amended): `calculate_state` returns status "CHARGING" iff the
distance is at most `HOME_RADIUS_KM` and "DRAINING" otherwise;
`VoltCore.update` returns "RECHARGING" (not "CHARGING") iff the distance
is at most its configured radius and "DRAINING" otherwise; in both, no
other status value is ever emitted (the initial "IDLE" of main.py line 74
is overwritten in both branches). -/
theorem C4_status_iff (b l d t : ℚ) (dc : ℤ) (hrv : Option ℚ) :
    ((calculate_state l d dc t).status = "CHARGING" ↔
      d ≤ HOME_RADIUS_KM) ∧
    ((calculate_state l d dc t).status = "CHARGING" ∨
      (calculate_state l d dc t).status = "DRAINING") ∧
    ((VoltCore.update b l d dc hrv t).2.status = "RECHARGING" ↔
      d ≤ volt_config.home_radius_km) ∧
    ((VoltCore.update b l d dc hrv t).2.status = "RECHARGING" ∨
      (VoltCore.update b l d dc hrv t).2.status = "DRAINING") := by
  simp only [calc_status, update_status]
  by_cases h1 : d ≤ HOME_RADIUS_KM <;>
    by_cases h2 : d ≤ volt_config.home_radius_km
  · rw [if_pos h1, if_pos h2]
    exact ⟨iff_of_true rfl h1, Or.inl rfl, iff_of_true rfl h2, Or.inl rfl⟩
  · rw [if_pos h1, if_neg h2]
    exact ⟨iff_of_true rfl h1, Or.inl rfl, iff_of_false (by decide) h2,
      Or.inr rfl⟩
  · rw [if_neg h1, if_pos h2]
    exact ⟨iff_of_false (by decide) h1, Or.inr rfl, iff_of_true rfl h2,
      Or.inl rfl⟩
  · rw [if_neg h1, if_neg h2]
    exact ⟨iff_of_false (by decide) h1, Or.inr rfl,
      iff_of_false (by decide) h2, Or.inr rfl⟩

/-- C5, counterexample: on a home tick (distance 0) with a present,
strictly positive HRV sample of 50, the `multiplier` variable of main.py
is never assigned in the charging branch and keeps its line-73 initial
value 0.0, so the emitted `stress_multiplier` is 0 — not the claimed
`clamp(baseline/hrv, 0.5, 3.0) = 1`, and outside `[0.5, 3.0] ∪ {1.0}`. -/
theorem C5_counterexample :
    (0 : ℚ) < 50 ∧
    (VoltCore.update 50 50 0 0 (some 50) 60).2.stress_multiplier = 0 ∧
    ¬ (VoltCore.update 50 50 0 0 (some 50) 60).2.stress_multiplier =
        max (1 / 2) (min (50 / 50) volt_config.max_stress_mult) ∧
    ¬ (1 / 2 ≤ (VoltCore.update 50 50 0 0 (some 50) 60).2.stress_multiplier) ∧
    ¬ (VoltCore.update 50 50 0 0 (some 50) 60).2.stress_multiplier = 1 := by
  have he : (VoltCore.update 50 50 0 0 (some 50) 60).2.stress_multiplier
      = 0 := by
    rw [update_home (d := 0) 50 50 60 0 (some 50) (by norm_num [volt_config])]
  refine ⟨by norm_num, he, ?_, ?_, ?_⟩ <;> rw [he] <;>
    norm_num [volt_config, min_def, max_def]

/-- C5 (amended): on every **away** tick the emitted stress multiplier is
`round(clamp(baselineHrv / sampleHrv, 0.5, maxStressMultiplier), 2)` when
the HRV sample is present and strictly positive (hence in `[0.5, 3.0]`),
and exactly 1.0 when the sample is absent or ≤ 0; on every **home** tick
the multiplier is not computed and the emitted `stress_multiplier` is
0.0. -/
theorem C5_stress_multiplier (b l d d2 t h h2 : ℚ) (dc : ℤ)
    (hrv : Option ℚ)
    (hd : ¬ d ≤ volt_config.home_radius_km)
    (hd2 : d2 ≤ volt_config.home_radius_km)
    (hh : 0 < h) (hh2 : h2 ≤ 0) :
    (VoltCore.update b l d dc (some h) t).2.stress_multiplier =
      round2 (max (1 / 2) (min (b / h) volt_config.max_stress_mult)) ∧
    (1 / 2 ≤ (VoltCore.update b l d dc (some h) t).2.stress_multiplier ∧
      (VoltCore.update b l d dc (some h) t).2.stress_multiplier ≤ 3) ∧
    (VoltCore.update b l d dc none t).2.stress_multiplier = 1 ∧
    (VoltCore.update b l d dc (some h2) t).2.stress_multiplier = 1 ∧
    (VoltCore.update b l d2 dc hrv t).2.stress_multiplier = 0 := by
  have hmain : (VoltCore.update b l d dc (some h) t).2.stress_multiplier =
      round2 (stress_mult b (some h)) := by
    rw [update_away b l t dc (some h) hd]
  refine ⟨?_, ⟨?_, ?_⟩, ?_, ?_, ?_⟩
  · rw [hmain, stress_mult_of_pos b hh]
  · rw [hmain]
    have h50 : round2 (1 / 2) = 1 / 2 := round2_eq_self 50 (by norm_num)
    calc (1 : ℚ) / 2 = round2 (1 / 2) := h50.symm
      _ ≤ round2 (stress_mult b (some h)) :=
        round2_mono (stress_mult_mem b hh).1
  · rw [hmain]
    have h300 : round2 3 = 3 := round2_eq_self 300 (by norm_num)
    calc round2 (stress_mult b (some h))
        ≤ round2 3 := round2_mono (stress_mult_mem b hh).2
      _ = 3 := h300
  · rw [update_away b l t dc none hd]
    dsimp only
    rw [stress_mult_none, round2_one]
  · rw [update_away b l t dc (some h2) hd]
    dsimp only
    rw [stress_mult_of_nonpos b hh2, round2_one]
  · rw [update_home b l t dc hrv hd2]

/-- C5 witness: the multiplier theorem at distance 1 (away tick),
distance 0 (home tick), HRV sample 25 and non-positive sample -5. -/
theorem C5_stress_multiplier_witness :
    (VoltCore.update 50 50 1 0 (some 25) 60).2.stress_multiplier =
      round2 (max (1 / 2) (min (50 / 25) volt_config.max_stress_mult)) ∧
    (1 / 2 ≤ (VoltCore.update 50 50 1 0 (some 25) 60).2.stress_multiplier ∧
      (VoltCore.update 50 50 1 0 (some 25) 60).2.stress_multiplier ≤ 3) ∧
    (VoltCore.update 50 50 1 0 none 60).2.stress_multiplier = 1 ∧
    (VoltCore.update 50 50 1 0 (some (-5)) 60).2.stress_multiplier = 1 ∧
    (VoltCore.update 50 50 0 0 none 60).2.stress_multiplier = 0 :=
  C5_stress_multiplier 50 50 1 0 60 25 (-5) 0 none
    (by norm_num [volt_config]) (by norm_num [volt_config]) (by norm_num)
    (by norm_num)

/-- C6, counterexample: at a home tick (distance 0 ≤ `HOME_RADIUS_KM`)
with level 50 and elapsed time −60 s, `calculate_state` leaves the level
at 50 (its `minutes > 0` guard), while the claimed formula
`clamp(level + chargeRate*elapsed/60, 0, 100)` gives 40. -/
theorem C6_counterexample :
    (0 : ℚ) ≤ HOME_RADIUS_KM ∧
    (calculate_state 50 0 0 (-60)).level = 50 ∧
    ¬ (calculate_state 50 0 0 (-60)).level =
        max 0 (min 100 (50 + CHARGE_RATE * (-60 / 60))) := by
  have he : (calculate_state 50 0 0 (-60)).level = 50 := by
    rw [calc_home (d := 0) 50 (-60) 0 (by norm_num [HOME_RADIUS_KM])]
    dsimp only
    norm_num
  refine ⟨by norm_num [HOME_RADIUS_KM], he, ?_⟩
  rw [he]
  norm_num [CHARGE_RATE, min_def, max_def]

/-- C6 (amended): while home, the new level does not depend on device
count or HRV; for `VoltCore.update` it equals
`clamp(level + chargeRatePerMin * elapsed/60, 0, 100)` for **every**
elapsed time, and for `calculate_state` that formula holds when the
elapsed time is positive (and the level non-negative), while a
non-positive elapsed time leaves the level unchanged instead. -/
theorem C6_charging_level (b l d d2 t s u : ℚ) (dc dc2 : ℤ)
    (hrv hrv2 : Option ℚ)
    (hd : d ≤ volt_config.home_radius_km) (hd2 : d2 ≤ HOME_RADIUS_KM)
    (hl0 : 0 ≤ l) (hs : 0 < s) (hu : u ≤ 0) :
    (VoltCore.update b l d dc hrv t).1 =
      (VoltCore.update b l d dc2 hrv2 t).1 ∧
    (VoltCore.update b l d dc hrv t).1 =
      clamp_level (l + volt_config.charge_rate_min * (t / 60)) ∧
    (calculate_state l d2 dc s).level = (calculate_state l d2 dc2 s).level ∧
    (calculate_state l d2 dc s).level =
      clamp_level (l + CHARGE_RATE * (s / 60)) ∧
    (calculate_state l d2 dc u).level = l := by
  refine ⟨?_, ?_, ?_, ?_, ?_⟩
  · rw [update_home b l t dc hrv hd, update_home b l t dc2 hrv2 hd]
  · rw [update_home b l t dc hrv hd]
  · rw [calc_home l s dc hd2, calc_home l s dc2 hd2]
  · rw [calc_home l s dc hd2]
    dsimp only
    rw [if_pos (div_pos hs (by norm_num))]
    have hm : 0 ≤ min 100 (l + CHARGE_RATE * (s / 60)) := by
      have h0 : 0 ≤ CHARGE_RATE * (s / 60) :=
        mul_nonneg (by norm_num [CHARGE_RATE])
          (le_of_lt (div_pos hs (by norm_num)))
      exact le_min (by norm_num) (by linarith)
    unfold clamp_level
    exact (max_eq_right hm).symm
  · rw [calc_home l u dc hd2]
    dsimp only
    rw [if_neg (by rw [not_lt]; linarith)]

/-- C6 witness: the charging theorem at distance 0, two different device
counts and HRV inputs, elapsed times 60, 45 and −30. -/
theorem C6_charging_level_witness :
    (VoltCore.update 50 50 0 2 (some 40) 60).1 =
      (VoltCore.update 50 50 0 7 none 60).1 ∧
    (VoltCore.update 50 50 0 2 (some 40) 60).1 =
      clamp_level (50 + volt_config.charge_rate_min * (60 / 60)) ∧
    (calculate_state 50 0 2 45).level = (calculate_state 50 0 7 45).level ∧
    (calculate_state 50 0 2 45).level =
      clamp_level (50 + CHARGE_RATE * (45 / 60)) ∧
    (calculate_state 50 0 2 (-30)).level = 50 :=
  C6_charging_level 50 50 0 0 60 45 (-30) 2 7 (some 40) none
    (by norm_num [volt_config]) (by norm_num [HOME_RADIUS_KM])
    (by norm_num) (by norm_num) (by norm_num)

/-- C7, counterexample: `VoltCore.update` performs no finiteness check;
with a NaN stored level (home tick, distance 0, 60 s) the clamp of line
100 evaluates `max(0.0, min(100.0, nan))`, which under Python's
NaN-comparison semantics is 100.0: the step neither signals an input
error nor leaves the stored level unchanged — it persists 100.0. -/
theorem C7_counterexample :
    VoltCore.updateF (PyF.fin 50) PyF.nan (PyF.fin 0) 0 none
      (PyF.fin 60) = PyF.fin 100 ∧
    ¬ (PyF.fin 100 = PyF.nan) := by
  constructor
  · simp only [VoltCore.updateF, PyF.nan_add]
    exact PyF.clamp_nan
  · intro hcontra
    exact PyF.noConfusion hcontra

/-- C7 (amended): the integration step performs no validation of
non-finite input: a NaN stored level, and likewise a NaN elapsed time,
propagates into the clamp where Python's `min`/`max` comparison
semantics coerce the stored (and persisted) level to exactly 100.0, with
no error signalled; a NaN HRV sample is silently treated like an absent
one (multiplier 1.0). -/
theorem C7_nan_passthrough (b d lvl t : PyF) (dc : ℤ) (hrv : Option PyF) :
    VoltCore.updateF b PyF.nan d dc hrv t = PyF.fin 100 ∧
    VoltCore.updateF b lvl d dc hrv PyF.nan = PyF.fin 100 ∧
    VoltCore.updateF b lvl d dc (some PyF.nan) t =
      VoltCore.updateF b lvl d dc none t := by
  refine ⟨?_, ?_, ?_⟩
  · simp only [VoltCore.updateF, PyF.nan_add]
    exact PyF.clamp_nan
  · have hdelta : ∀ x : PyF,
        PyF.add lvl (PyF.neg (PyF.mul x (PyF.div PyF.nan (PyF.fin 60))))
          = PyF.nan := by
      intro x
      rw [show PyF.div PyF.nan (PyF.fin 60) = PyF.nan from rfl,
        PyF.mul_nan, show PyF.neg PyF.nan = PyF.nan from rfl, PyF.add_nan]
    simp only [VoltCore.updateF]
    cases hb : PyF.le d (PyF.fin volt_config.home_radius_km)
    · simp only [Bool.false_eq_true, if_false]
      rw [hdelta]
      exact PyF.clamp_nan
    · simp only [if_true]
      rw [show PyF.div PyF.nan (PyF.fin 60) = PyF.nan from rfl,
        PyF.mul_nan, PyF.add_nan]
      exact PyF.clamp_nan
  · simp only [VoltCore.updateF, PyF.lt_fin_nan, Bool.false_eq_true,
      if_false]

/-- C8, counterexample: a one-tick away sequence (distance 1 > radius)
with device count −10 makes the crowd term negative
(`0.1 + (-10)*0.25 = -2.4` %/min), so the level **rises** from 50 to
52.4 = 262/5 while away — the away direction of the claim fails without
a non-negative device count. -/
theorem C8_counterexample :
    ¬ ((1 : ℚ) ≤ volt_config.home_radius_km) ∧
    runVolt 50 50 [Tick.mk 1 (-10) none 60] = 262 / 5 ∧
    50 < runVolt 50 50 [Tick.mk 1 (-10) none 60] := by
  have he : runVolt 50 50 [Tick.mk 1 (-10) none 60] = 262 / 5 := by
    simp only [runVolt]
    rw [update_away (d := 1) 50 50 60 (-10) none (by norm_num [volt_config])]
    dsimp only
    norm_num [volt_config, stress_mult_none, clamp_level, min_def, max_def]
  refine ⟨by norm_num [volt_config], he, ?_⟩
  rw [he]
  norm_num

/-- C8 (amended): starting from a level in `[0, 100]`, across any
sequence of ticks that are all home and have non-negative elapsed times
the level is non-decreasing, and across any sequence of ticks that are
all away and have non-negative elapsed times **and non-negative device
counts** it is non-increasing — for both `VoltCore.update` (`runVolt`)
and `calculate_state` (`runCalc`; its home direction needs no elapsed
time restriction thanks to its `minutes > 0` guard). -/
theorem C8_monotonic (b l : ℚ) (ts : List Tick) (hl0 : 0 ≤ l)
    (hl1 : l ≤ 100) :
    ((∀ tk ∈ ts, tk.distance ≤ volt_config.home_radius_km ∧
        0 ≤ tk.time_delta_sec) → l ≤ runVolt b l ts) ∧
    ((∀ tk ∈ ts, ¬ tk.distance ≤ volt_config.home_radius_km ∧
        0 ≤ tk.time_delta_sec ∧ 0 ≤ tk.device_count) →
      runVolt b l ts ≤ l) ∧
    ((∀ tk ∈ ts, tk.distance ≤ HOME_RADIUS_KM) → l ≤ runCalc l ts) ∧
    ((∀ tk ∈ ts, ¬ tk.distance ≤ HOME_RADIUS_KM ∧ 0 ≤ tk.device_count) →
      runCalc l ts ≤ l) :=
  ⟨fun hts => runVolt_home_mono b ts l hl1 hts,
   fun hts => runVolt_away_anti b ts l hl0 hts,
   fun hts => runCalc_home_mono ts l hl1 hts,
   fun hts => runCalc_away_anti ts l hl0 hts⟩

/-- C8 witness: the monotonicity theorem applied to a concrete home tick
sequence and a concrete away tick sequence from level 50. -/
theorem C8_monotonic_witness :
    50 ≤ runVolt 50 50 [Tick.mk 0 1 none 30, Tick.mk 0 2 (some 40) 60] ∧
    runCalc 50 [Tick.mk 1 2 none 60] ≤ 50 := by
  constructor
  · refine (C8_monotonic 50 50 [Tick.mk 0 1 none 30, Tick.mk 0 2 (some 40) 60]
      (by norm_num) (by norm_num)).1 ?_
    intro tk htk
    rw [List.mem_cons, List.mem_singleton] at htk
    rcases htk with rfl | rfl
    · exact ⟨by norm_num [volt_config], by norm_num⟩
    · exact ⟨by norm_num [volt_config], by norm_num⟩
  · refine (C8_monotonic 50 50 [Tick.mk 1 2 none 60]
      (by norm_num) (by norm_num)).2.2.2 ?_
    intro tk htk
    rw [List.mem_singleton] at htk
    subst htk
    exact ⟨by norm_num [HOME_RADIUS_KM], by norm_num⟩

/-- C9, counterexample: on a home (CHARGING) tick `calculate_state`
reports `drain_rate = -rate = -10`, a **negative** value, where the claim
says the reported signed rate is positive while charging (and
symmetrically it reports `+rate` while draining). -/
theorem C9_counterexample :
    (calculate_state 50 0 0 60).status = "CHARGING" ∧
    (calculate_state 50 0 0 60).drain_rate = -10 ∧
    (calculate_state 50 0 0 60).drain_rate < 0 := by
  refine ⟨?_, ?_, ?_⟩
  · rw [calc_status]
    norm_num [HOME_RADIUS_KM]
  · rw [calc_home (d := 0) 50 60 0 (by norm_num [HOME_RADIUS_KM])]
    dsimp only
    norm_num [CHARGE_RATE]
  · rw [calc_home (d := 0) 50 60 0 (by norm_num [HOME_RADIUS_KM])]
    dsimp only
    norm_num [CHARGE_RATE]

/-- C9 (amended): the sign convention is the opposite of the claim: the
`drain_rate` field is the unclamped per-minute rate, reported as
`-chargeRate` (negative) while the status is CHARGING and as the positive
drain rate `5.0 * (1 + 0.2 * deviceCount)` while the status is DRAINING
(positive for non-negative device counts). -/
theorem C9_drain_rate_sign (l d t : ℚ) (dc : ℤ) (hdc : 0 ≤ dc) :
    ((calculate_state l d dc t).status = "CHARGING" →
      (calculate_state l d dc t).drain_rate = -CHARGE_RATE ∧
      (calculate_state l d dc t).drain_rate < 0) ∧
    ((calculate_state l d dc t).status = "DRAINING" →
      (calculate_state l d dc t).drain_rate =
        BASE_DRAIN_RATE * (1 + (dc : ℚ) * CROWD_FACTOR) ∧
      0 < (calculate_state l d dc t).drain_rate) := by
  by_cases hd : d ≤ HOME_RADIUS_KM
  · rw [calc_home l t dc hd]
    dsimp only
    constructor
    · intro _
      exact ⟨rfl, by norm_num [CHARGE_RATE]⟩
    · intro hcontra
      exact absurd hcontra (by decide)
  · rw [calc_away l t dc hd]
    dsimp only
    constructor
    · intro hcontra
      exact absurd hcontra (by decide)
    · intro _
      refine ⟨rfl, ?_⟩
      have hdq : (0 : ℚ) ≤ (dc : ℚ) := by exact_mod_cast hdc
      have h0 : 0 ≤ (dc : ℚ) * CROWD_FACTOR :=
        mul_nonneg hdq (by norm_num [CROWD_FACTOR])
      norm_num [BASE_DRAIN_RATE]
      linarith

/-- C9 witness: the sign theorem at a home tick and device count 3. -/
theorem C9_drain_rate_sign_witness :
    ((calculate_state 50 0 3 60).status = "CHARGING" →
      (calculate_state 50 0 3 60).drain_rate = -CHARGE_RATE ∧
      (calculate_state 50 0 3 60).drain_rate < 0) ∧
    ((calculate_state 50 0 3 60).status = "DRAINING" →
      (calculate_state 50 0 3 60).drain_rate =
        BASE_DRAIN_RATE * (1 + ((3 : ℤ) : ℚ) * CROWD_FACTOR) ∧
      0 < (calculate_state 50 0 3 60).drain_rate) :=
  C9_drain_rate_sign 50 0 60 3 (by norm_num)

/-- C10: the websocket handler parses every inbound message with
defaults — latitude and longitude default to 0.0, the device count to 0,
the HRV value to absent — so a message with all fields missing is
processed as a normal tick at coordinates (0, 0) with 0 devices and no
HRV (yielding the usual RECHARGING-or-DRAINING result depending on where
home is), rather than being rejected. -/
theorem C10_ws_defaults (dist_of : ℚ → ℚ → ℚ) (b l ds : ℚ)
    (m : WsMessage) :
    websocket_step dist_of b l m ds =
      VoltCore.update b l
        (dist_of (m.latitude.getD 0) (m.longitude.getD 0))
        (m.nearby_device_count.getD 0) m.hrv_value
        (if ds ≤ 0 then 1 else ds) ∧
    websocket_step dist_of b l ⟨none, none, none, none⟩ ds =
      VoltCore.update b l (dist_of 0 0) 0 none
        (if ds ≤ 0 then 1 else ds) ∧
    ((websocket_step dist_of b l ⟨none, none, none, none⟩ ds).2.status =
        "RECHARGING" ∨
      (websocket_step dist_of b l ⟨none, none, none, none⟩ ds).2.status =
        "DRAINING") := by
  refine ⟨rfl, rfl, ?_⟩
  rw [show websocket_step dist_of b l ⟨none, none, none, none⟩ ds =
      VoltCore.update b l (dist_of 0 0) 0 none
        (if ds ≤ 0 then 1 else ds) from rfl, update_status]
  by_cases hd : dist_of 0 0 ≤ volt_config.home_radius_km
  · rw [if_pos hd]
    exact Or.inl rfl
  · rw [if_neg hd]
    exact Or.inr rfl
